import Mathlib

/-!
Verification of the Ekfv1.5 log-ingestion core against its specification.

The development shallowly embeds, in Lean, the parts of the Python source
that the verified properties speak about:

* `bot/parsers/intelligent_connection_parser.py` — the per-player connection
  state machine (`PlayerConnectionState`), the per-server tracking and live
  counters (`IntelligentConnectionParser`), and the idle-state cleanup sweep;
* `bot/parsers/log_parser.py` — file-reset detection and the incremental
  line-window selection of the ingestion pipeline;
* `attached_assets/Efkv1.4-main/bot/parsers/killfeed_parser.py` together with
  `bot/models/database.py` — CSV kill-record parsing, suicide normalization,
  and the per-player statistics updates.

Wall-clock time (`datetime.now`) is threaded through as an explicit rational
parameter `now` (seconds).  Python dictionaries keyed by player id are
embedded as association lists preserving insertion order.  Regular-expression
classification of raw log lines is abstracted to an event datatype carrying
the captured groups; every property below is about what happens after a line
has been classified.
-/

/-! ## Connection state machine (intelligent_connection_parser.py) -/

/-- The closed set of values `PlayerConnectionState.current_state` ranges
over in the source (string literals there). -/
inductive ConnState
  | OFFLINE
  | QUEUED
  | CONNECTING
  | JOINED
  | DISCONNECTED
deriving DecidableEq

/-- One entry of the `state_transitions` audit log:
`(from_state, to_state, event_type, timestamp)`. -/
structure TransitionRec where
  from_state : ConnState
  to_state : ConnState
  event_type : String
  timestamp : ℚ
deriving DecidableEq

/-- Embedding of the Python class `PlayerConnectionState` (fields of
`__init__`). -/
structure PlayerConnectionState where
  player_id : String
  player_name : Option String
  current_state : ConnState
  last_event_time : ℚ
  last_event_type : Option String
  state_transitions : List TransitionRec
deriving DecidableEq

/-- `PlayerConnectionState.__init__`: fresh state is OFFLINE with
`last_event_time = datetime.now()` and no last event. -/
def PlayerConnectionState.new (player_id : String) (player_name : Option String)
    (now : ℚ) : PlayerConnectionState :=
  ⟨player_id, player_name, ConnState.OFFLINE, now, none, []⟩

/-- The `valid_transitions` table of `can_transition_to`. -/
def valid_transitions : ConnState → List ConnState
  | ConnState.OFFLINE => [ConnState.QUEUED, ConnState.CONNECTING, ConnState.JOINED]
  | ConnState.QUEUED => [ConnState.CONNECTING, ConnState.JOINED, ConnState.DISCONNECTED]
  | ConnState.CONNECTING => [ConnState.JOINED, ConnState.DISCONNECTED]
  | ConnState.JOINED => [ConnState.DISCONNECTED]
  | ConnState.DISCONNECTED =>
      [ConnState.QUEUED, ConnState.CONNECTING, ConnState.JOINED, ConnState.OFFLINE]

/-- `PlayerConnectionState.can_transition_to`: membership of the target in
the allowed set of the current state. -/
def PlayerConnectionState.can_transition_to (ps : PlayerConnectionState)
    (new_state : ConnState) : Bool :=
  decide (new_state ∈ valid_transitions ps.current_state)

/-- `PlayerConnectionState.is_duplicate_event`: same event type as the last
applied event and less than `time_threshold` seconds since it.  The source
defaults `time_threshold` to 30.0; callers here pass it explicitly. -/
def PlayerConnectionState.is_duplicate_event (ps : PlayerConnectionState)
    (event_type : String) (time_threshold : ℚ) (now : ℚ) : Bool :=
  let time_diff := now - ps.last_event_time
  if ps.last_event_type = some event_type ∧ time_diff < time_threshold then true
  else false

/-- Which branch of `transition_to` fired.  The source returns a plain bool
(`applied` ↦ `True`, the other two ↦ `False`) and distinguishes the branches
only by the diagnostic it logs; the outcome records that branch. -/
inductive TransitionOutcome
  | dropped_duplicate
  | rejected_invalid
  | applied
deriving DecidableEq

/-- Severity of the diagnostic each branch of `transition_to` logs:
`logger.debug` for a duplicate drop and for a success,
`logger.warning` for an invalid transition. -/
inductive LogLevel
  | debug
  | info
  | warning
  | error
deriving DecidableEq

/-- Diagnostic level logged by each `transition_to` branch. -/
def transition_log_level : TransitionOutcome → LogLevel
  | TransitionOutcome.dropped_duplicate => LogLevel.debug
  | TransitionOutcome.rejected_invalid => LogLevel.warning
  | TransitionOutcome.applied => LogLevel.debug

/-- The boolean the source's `transition_to` returns. -/
def TransitionOutcome.succeeded : TransitionOutcome → Bool
  | TransitionOutcome.applied => true
  | _ => false

/-- `PlayerConnectionState.transition_to`: duplicate check first, then
validity, then the state/audit-log update.  Returns the (possibly unchanged)
state and the branch taken. -/
def PlayerConnectionState.transition_to (ps : PlayerConnectionState)
    (new_state : ConnState) (event_type : String) (now : ℚ) :
    PlayerConnectionState × TransitionOutcome :=
  if ps.is_duplicate_event event_type 30 now then
    (ps, TransitionOutcome.dropped_duplicate)
  else if ps.can_transition_to new_state = false then
    (ps, TransitionOutcome.rejected_invalid)
  else
    ({ ps with
        state_transitions :=
          ps.state_transitions ++ [⟨ps.current_state, new_state, event_type, now⟩],
        current_state := new_state,
        last_event_time := now,
        last_event_type := some event_type },
     TransitionOutcome.applied)

/-! ## Per-server tracking (IntelligentConnectionParser) -/

/-- One server's slice of `self.player_states`, `self.server_counts` and the
optional `max_players` entry.  The Python dict of player states becomes an
association list in insertion order. -/
structure ServerTracking where
  player_states : List (String × PlayerConnectionState)
  queue_count : Nat
  player_count : Nat
  max_players : Option Nat
deriving DecidableEq

/-- `initialize_server_tracking` for a previously unseen server key:
empty state table, both counters zero. -/
def initServerTracking : ServerTracking :=
  ⟨[], 0, 0, none⟩

/-- Dictionary lookup on the association list. -/
def lookupState (l : List (String × PlayerConnectionState)) (k : String) :
    Option PlayerConnectionState :=
  match l with
  | [] => none
  | (k2, v) :: rest => if k2 = k then some v else lookupState rest k

/-- Dictionary write: replace in place if the key exists, append otherwise
(Python dict semantics, insertion order kept). -/
def setState (l : List (String × PlayerConnectionState)) (k : String)
    (v : PlayerConnectionState) : List (String × PlayerConnectionState) :=
  match l with
  | [] => [(k, v)]
  | (k2, v2) :: rest =>
      if k2 = k then (k2, v) :: rest else (k2, v2) :: setState rest k v

/-- Python truthiness of an optional name (`None` and `""` are falsy). -/
def truthyName : Option String → Bool
  | none => false
  | some s => decide (s ≠ "")

/-- `get_or_create_player_state`: create a fresh OFFLINE state for unknown
ids; back-fill the display name when a truthy name arrives for a state that
has none. -/
def get_or_create_player_state (l : List (String × PlayerConnectionState))
    (player_id : String) (player_name : Option String) (now : ℚ) :
    List (String × PlayerConnectionState) :=
  match lookupState l player_id with
  | none => l ++ [(player_id, PlayerConnectionState.new player_id player_name now)]
  | some ps =>
      if truthyName player_name = true ∧ truthyName ps.player_name = false then
        setState l player_id { ps with player_name := player_name }
      else l

/-- Events `parse_connection_event` reacts to, abstracting the regex match to
its captured groups (`disconnect` covers both textual disconnect patterns,
which the source funnels into the same branch). -/
inductive ConnEvent
  | queue_join (player_name player_id : String)
  | beacon_join (player_id : String)
  | player_joined (player_id : String)
  | disconnect (player_id : String)
  | beacon_disconnect (player_id : String)
  | server_max_players (n : Nat)
deriving DecidableEq

/-- A call to `_queue_join_embed` / `_queue_leave_embed`: the parser's
decision to emit a user-facing notification for this player.  (Actual
delivery additionally needs a configured channel and a resolvable name,
which are external concerns.) -/
inductive EmbedCall
  | player_join (player_id : String) (player_name : Option String)
  | player_leave (player_id : String) (player_name : Option String)
deriving DecidableEq

/-- The scan `_update_counts` performs: number of tracked players currently
in state `s`. -/
def countInState (l : List (String × PlayerConnectionState)) (s : ConnState) : Nat :=
  (l.filter (fun p => decide (p.2.current_state = s))).length

/-- `_update_counts`: recompute both counters by a full scan of the server's
player states (`QUEUED` for the queue, `JOINED` for players; no other state
is counted). -/
def update_counts (sv : ServerTracking) : ServerTracking :=
  { sv with
      queue_count := countInState sv.player_states ConnState.QUEUED,
      player_count := countInState sv.player_states ConnState.JOINED }

/-- Look up the player's state, run `transition_to` on it, and write the
result back — the shape every event branch of `parse_connection_event`
shares (in Python the write-back is mutation of the looked-up object). -/
def applyTransition (states : List (String × PlayerConnectionState))
    (player_id : String) (new_state : ConnState) (event_type : String) (now : ℚ) :
    List (String × PlayerConnectionState) × TransitionOutcome :=
  match lookupState states player_id with
  | none => (states, TransitionOutcome.rejected_invalid)
  | some ps =>
      let r := ps.transition_to new_state event_type now
      (setState states player_id r.1, r.2)

/-- The `player_state.current_state = 'OFFLINE'` line of the direct-join
branch: force the (freshly created) state to OFFLINE before transitioning. -/
def forceOffline (states : List (String × PlayerConnectionState))
    (player_id : String) : List (String × PlayerConnectionState) :=
  match lookupState states player_id with
  | none => states
  | some ps => setState states player_id { ps with current_state := ConnState.OFFLINE }

/-- The `_queue_join_embed` call made after a successful join transition. -/
def joinEmbedCalls (states : List (String × PlayerConnectionState))
    (player_id : String) : List EmbedCall :=
  match lookupState states player_id with
  | none => []
  | some ps => [EmbedCall.player_join player_id ps.player_name]

/-- The `_queue_leave_embed` call made after a successful disconnect of a
previously JOINED player. -/
def leaveEmbedCalls (states : List (String × PlayerConnectionState))
    (player_id : String) : List EmbedCall :=
  match lookupState states player_id with
  | none => []
  | some ps => [EmbedCall.player_leave player_id ps.player_name]

/-- `IntelligentConnectionParser.parse_connection_event`, branch by branch:

* queue join (guarded by `if player_id:`): get-or-create with the captured
  name, transition to QUEUED; recompute counts only on success;
* beacon join (guarded): get-or-create, transition to CONNECTING; the source
  does **not** recompute counts in this branch;
* player joined: tracked ids transition to JOINED; unknown ids are created,
  forced to OFFLINE and direct-joined; success recomputes counts and queues
  a join embed;
* disconnect / beacon disconnect: remember whether the player was JOINED
  before the transition, transition to DISCONNECTED; success recomputes
  counts and queues a leave embed only if the player had been JOINED; an
  unknown id on `disconnect` just creates a minimal state;
* server max players: store the observed maximum. -/
def parse_connection_event (sv : ServerTracking) (ev : ConnEvent) (now : ℚ) :
    ServerTracking × List EmbedCall :=
  match ev with
  | ConnEvent.queue_join player_name player_id =>
      if player_id = "" then (sv, [])
      else
        let states1 := get_or_create_player_state sv.player_states player_id
          (some player_name) now
        let r := applyTransition states1 player_id ConnState.QUEUED "queue_join" now
        let sv2 := { sv with player_states := r.1 }
        if r.2 = TransitionOutcome.applied then (update_counts sv2, []) else (sv2, [])
  | ConnEvent.beacon_join player_id =>
      if player_id = "" then (sv, [])
      else
        let states1 := get_or_create_player_state sv.player_states player_id none now
        let r := applyTransition states1 player_id ConnState.CONNECTING "beacon_join" now
        ({ sv with player_states := r.1 }, [])
  | ConnEvent.player_joined player_id =>
      match lookupState sv.player_states player_id with
      | some _ =>
          let r := applyTransition sv.player_states player_id ConnState.JOINED
            "player_joined" now
          let sv2 := { sv with player_states := r.1 }
          if r.2 = TransitionOutcome.applied then
            (update_counts sv2, joinEmbedCalls r.1 player_id)
          else (sv2, [])
      | none =>
          let states1 := get_or_create_player_state sv.player_states player_id none now
          let states2 := forceOffline states1 player_id
          let r := applyTransition states2 player_id ConnState.JOINED "player_joined" now
          let sv2 := { sv with player_states := r.1 }
          if r.2 = TransitionOutcome.applied then
            (update_counts sv2, joinEmbedCalls r.1 player_id)
          else (sv2, [])
  | ConnEvent.disconnect player_id =>
      match lookupState sv.player_states player_id with
      | some ps =>
          let r := applyTransition sv.player_states player_id ConnState.DISCONNECTED
            "disconnect" now
          let sv2 := { sv with player_states := r.1 }
          if r.2 = TransitionOutcome.applied then
            (update_counts sv2,
             if ps.current_state = ConnState.JOINED then leaveEmbedCalls r.1 player_id
             else [])
          else (sv2, [])
      | none =>
          ({ sv with
              player_states :=
                get_or_create_player_state sv.player_states player_id none now }, [])
  | ConnEvent.beacon_disconnect player_id =>
      if player_id = "" then (sv, [])
      else
        match lookupState sv.player_states player_id with
        | some ps =>
            let r := applyTransition sv.player_states player_id ConnState.DISCONNECTED
              "beacon_disconnect" now
            let sv2 := { sv with player_states := r.1 }
            if r.2 = TransitionOutcome.applied then
              (update_counts sv2,
               if ps.current_state = ConnState.JOINED then leaveEmbedCalls r.1 player_id
               else [])
            else (sv2, [])
        | none => (sv, [])
  | ConnEvent.server_max_players n =>
      ({ sv with max_players := some n }, [])

/-- `cleanup_old_states` restricted to one server's table: delete exactly the
states that are DISCONNECTED and older than the cutoff
(`now - max_age_hours * 3600`).  The source defaults `max_age_hours` to 24;
callers here pass it explicitly. -/
def cleanup_old_states (l : List (String × PlayerConnectionState))
    (max_age_hours : ℚ) (now : ℚ) : List (String × PlayerConnectionState) :=
  let cutoff := now - max_age_hours * 3600
  l.filter (fun p =>
    !(decide (p.2.current_state = ConnState.DISCONNECTED) &&
      decide (p.2.last_event_time < cutoff)))

/-- Total length of all audit logs on a server — grows by exactly one on each
applied transition, unchanged otherwise, so it observes whether an event's
transition was applied. -/
def totalTransitions (l : List (String × PlayerConnectionState)) : Nat :=
  (l.map (fun p => p.2.state_transitions.length)).sum

/-- Events whose branch in `parse_connection_event` recomputes the counters
on success (queue join, player joined, both disconnect shapes). -/
def isCountedEvent : ConnEvent → Bool
  | ConnEvent.queue_join _ _ => true
  | ConnEvent.player_joined _ => true
  | ConnEvent.disconnect _ => true
  | ConnEvent.beacon_disconnect _ => true
  | _ => false

/-- Whether a batch of embed calls contains a leave notification. -/
def hasLeaveCall (calls : List EmbedCall) : Bool :=
  calls.any (fun c =>
    match c with
    | EmbedCall.player_leave _ _ => true
    | _ => false)

/-! ## File-reset detection and incremental ingestion (log_parser.py) -/

/-- Stored per-server file state (`self.file_states[server_key]`): size, line
count and last-line fingerprint of the previously processed content. -/
structure FileState where
  file_size : ℚ
  line_count : Nat
  last_line : String
deriving DecidableEq

/-- Substring test (`needle in hay` on Python strings). -/
def strContains (hay needle : String) : Bool :=
  (List.range (hay.data.length + 1)).any
    (fun i => needle.data.isPrefixOf (hay.data.drop i))

/-- The single line the third check of `_detect_file_reset` probes:
`current_lines[-min(50, len(current_lines))]`, i.e. the element at index
`len - min 50 len` — one line, not a slice of 50. -/
def tailProbeLine (lines : List String) : String :=
  lines.getD (lines.length - min 50 lines.length) ""

/-- `LogParser._detect_file_reset`: no stored state means first run (no
reset); otherwise reset when the size dropped below 10% of the stored size,
or the line count dropped below 10% of the stored count, or the stored last
line does not occur (as a substring) in the probed line while the size is
below 80% of the stored size. -/
def detect_file_reset (stored : Option FileState) (current_size : ℚ)
    (current_lines : List String) : Bool :=
  match stored with
  | none => false
  | some st =>
      if 0 < st.file_size ∧ current_size < st.file_size * (1 / 10) then true
      else if 0 < st.line_count ∧
          (current_lines.length : ℚ) < (st.line_count : ℚ) * (1 / 10) then true
      else if st.last_line ≠ "" ∧ current_lines ≠ [] ∧
          current_size < st.file_size * (8 / 10) ∧
          strContains (tailProbeLine current_lines) st.last_line = false then true
      else false

/-- The window-selection and state-update logic shared verbatim by
`get_sftp_log_content` and `parse_dev_logs`: detect a reset, start from line
0 on reset or from the stored `line_count` otherwise (forcing 0 when the
stored position exceeds the file), take the lines beyond that position, and
store the new `(size, line_count, last_line)` via `_update_file_state`
whenever the file has any lines. -/
def ingest_select_window (stored : Option FileState) (file_size : ℚ)
    (all_lines : List String) : List String × Option FileState :=
  let file_was_reset := detect_file_reset stored file_size all_lines
  let last_line_count :=
    if file_was_reset then 0
    else
      let stored_count :=
        match stored with
        | none => 0
        | some st => st.line_count
      if all_lines.length < stored_count then 0 else stored_count
  let new_lines := all_lines.drop last_line_count
  let new_state :=
    if all_lines ≠ [] then
      some ⟨file_size, all_lines.length, all_lines.getLastD ""⟩
    else stored
  (new_lines, new_state)

/-! ## Killfeed CSV parsing and statistics (Efkv1.4 killfeed_parser.py with
bot/models/database.py) -/

/-- Python whitespace for `str.strip()` (the characters that occur in this
code base's inputs). -/
def isSpaceChar (c : Char) : Bool :=
  c = ' ' ∨ c = '\t' ∨ c = '\n' ∨ c = '\r'

/-- Python `str.strip()`: drop leading and trailing whitespace. -/
def pyStrip (s : String) : String :=
  String.mk (((s.data.dropWhile isSpaceChar).reverse.dropWhile isSpaceChar).reverse)

/-- Splitting a character list on a separator character, Python
`str.split(sep)` semantics (`"".split(sep) == [""]`, empty pieces kept). -/
def splitOnCharList (c : Char) : List Char → List (List Char)
  | [] => [[]]
  | x :: rest =>
      match splitOnCharList c rest with
      | [] => if x = c then [[], []] else [[x]]
      | h :: t => if x = c then [] :: h :: t else (x :: h) :: t

/-- Python `str.split(c)` for a one-character separator. -/
def pySplit (s : String) (c : Char) : List String :=
  (splitOnCharList c s.data).map String.mk

/-- ASCII lower-casing of one character (the self-inflicted weapon markers
are ASCII). -/
def lowerChar (c : Char) : Char :=
  if 'A' ≤ c ∧ c ≤ 'Z' then Char.ofNat (c.toNat + 32) else c

/-- Python `str.lower()` on the ASCII inputs this code compares. -/
def pyLower (s : String) : String :=
  String.mk (s.data.map lowerChar)

/-- A parsed kill record (the dict `parse_csv_line` returns).  The timestamp
is kept as the raw field text: its conversion to a datetime (with a
fall-back to "now") plays no role in any verified property. -/
structure KillRecord where
  timestamp_str : String
  killer : String
  killer_id : String
  victim : String
  victim_id : String
  weapon : String
  distance : ℚ
  killer_platform : String
  victim_platform : String
  is_suicide : Bool
  raw_line : String
deriving DecidableEq

/-- Value of a non-empty all-digit character run. -/
def digitsVal (cs : List Char) : Option Nat :=
  if cs ≠ [] ∧ cs.all (fun c => c.isDigit) then
    some (cs.foldl (fun acc c => acc * 10 + (c.toNat - 48)) 0)
  else none

/-- Python `float(s)` on the plain decimal literals the killfeed CSV carries
(`"123"`, `"123.4"`); anything else is a parse failure, which the caller
turns into `0.0`.  Exotic float syntax (signs, exponents) never appears in
the CSV distance field and is irrelevant to every verified property. -/
def parseFloatQ (s : String) : Option ℚ :=
  match pySplit s '.' with
  | [a] => (digitsVal a.data).map (fun n => (n : ℚ))
  | [a, b] =>
      match digitsVal a.data, digitsVal b.data with
      | some n, some m => some ((n : ℚ) + (m : ℚ) / ((10 : ℚ) ^ b.length))
      | _, _ => none
  | _ => none

/-- The distance-field handling of `parse_csv_line`: empty or `"N/A"` (or an
unparsable value) becomes `0.0`. -/
def parseDistanceField (d : String) : ℚ :=
  if d ≠ "" ∧ d ≠ "N/A" then (parseFloatQ d).getD 0 else 0

/-- `KillfeedParser.parse_csv_line`: split the stripped line on `;`, require
at least 9 fields and non-blank killer/victim names, classify and normalize
suicides, and parse the distance. -/
def parse_csv_line (line : String) : Option KillRecord :=
  let parts := pySplit (pyStrip line) ';'
  if parts.length < 9 then none
  else
    let timestamp_str := parts.getD 0 ""
    let killer0 := parts.getD 1 ""
    let killer_id := parts.getD 2 ""
    let victim0 := parts.getD 3 ""
    let victim_id := parts.getD 4 ""
    let weapon0 := parts.getD 5 ""
    let distance0 := parts.getD 6 ""
    let killer_platform := parts.getD 7 ""
    let victim_platform := parts.getD 8 ""
    if pyStrip killer0 = "" ∨ pyStrip victim0 = "" then none
    else
      let killer := pyStrip killer0
      let victim := pyStrip victim0
      let is_suicide0 : Bool :=
        decide (killer = victim) || decide (pyLower weapon0 = "suicide_by_relocation")
      let wr : String × Bool :=
        if is_suicide0 then
          if pyLower weapon0 = "suicide_by_relocation" then ("Menu Suicide", is_suicide0)
          else if pyLower weapon0 = "falling" then ("Falling", true)
          else ("Suicide", is_suicide0)
        else (weapon0, is_suicide0)
      some
        { timestamp_str := timestamp_str
          killer := killer
          killer_id := killer_id
          victim := victim
          victim_id := victim_id
          weapon := wr.1
          distance := parseDistanceField distance0
          killer_platform := killer_platform
          victim_platform := victim_platform
          is_suicide := wr.2
          raw_line := pyStrip line }

/-- A key of the `pvp_data` collection's `player_name` field.  Python is
dynamically typed here: `process_kill_event` can (and does) pass a float
where a string name is expected, so the key space covers both. -/
inductive PName
  | str (s : String)
  | num (q : ℚ)
deriving DecidableEq

/-- One `pvp_data` document's stat fields (`update_pvp_stats` defaults). -/
structure PvpStats where
  kills : Nat
  deaths : Nat
  suicides : Nat
  kdr : ℚ
  total_distance : ℚ
  longest_streak : Nat
  current_streak : Nat
  personal_best_distance : ℚ
deriving DecidableEq

/-- The all-zero document `update_pvp_stats` upserts for an unseen player. -/
def PvpStats.zero : PvpStats :=
  ⟨0, 0, 0, 0, 0, 0, 0, 0⟩

/-- The `pvp_data` collection viewed as a total map with zero-document
defaults (Mongo `$inc`/`$setOnInsert` upsert semantics). -/
def Pvp : Type :=
  PName → PvpStats

/-- Point update of one player's document. -/
def updateAt (db : Pvp) (n : PName) (f : PvpStats → PvpStats) : Pvp :=
  fun m => if m = n then f (db m) else db m

/-- `_update_kdr`, run after a kills/deaths increment:
`kdr = kills / max(deaths, 1)` when deaths > 0 else `kills`. -/
def recomputeKdr (st : PvpStats) : PvpStats :=
  { st with
      kdr := if 0 < st.deaths then (st.kills : ℚ) / (max st.deaths 1 : ℚ)
             else (st.kills : ℚ) }

/-- `update_pvp_stats(..., {"suicides": 1})` — atomic `$inc`. -/
def inc_suicides (db : Pvp) (n : PName) : Pvp :=
  updateAt db n (fun st => { st with suicides := st.suicides + 1 })

/-- `update_pvp_stats(..., {"kills": 1})` followed by `_update_kdr`. -/
def inc_kills (db : Pvp) (n : PName) : Pvp :=
  updateAt db n (fun st => recomputeKdr { st with kills := st.kills + 1 })

/-- `update_pvp_stats(..., {"deaths": 1})` followed by `_update_kdr`. -/
def inc_deaths (db : Pvp) (n : PName) : Pvp :=
  updateAt db n (fun st => recomputeKdr { st with deaths := st.deaths + 1 })

/-- `update_pvp_stats(..., {"total_distance": d})` — atomic `$inc`. -/
def inc_total_distance (db : Pvp) (n : PName) (d : ℚ) : Pvp :=
  updateAt db n (fun st => { st with total_distance := st.total_distance + d })

/-- `DatabaseManager.reset_player_streak`: `$set current_streak = 0`. -/
def reset_player_streak (db : Pvp) (n : PName) : Pvp :=
  updateAt db n (fun st => { st with current_streak := 0 })

/-- The multi-field `$set` issued at the end of `increment_player_kill`
(`current_streak`, `longest_streak`, and `personal_best_distance` when the
strict-improvement condition held).  No kills/deaths key, hence no kdr
recomputation on this path. -/
def set_streaks (db : Pvp) (n : PName) (cur longest : Nat) (pb : Option ℚ) : Pvp :=
  updateAt db n (fun st =>
    { st with
        current_streak := cur,
        longest_streak := longest,
        personal_best_distance := pb.getD st.personal_best_distance })

/-- The `max(0.0, min(distance, 5000.0))` clamp used by both
`add_kill_event` and `increment_player_kill`. -/
def clampDistance (d : ℚ) : ℚ :=
  max 0 (min d 5000)

/-- Python `round(d, 1)` in `increment_player_kill`, as round-half-up on
rationals.  (Python rounds half-to-even; the two differ only at exact .05
ties, which no verified property exercises.) -/
def round1 (d : ℚ) : ℚ :=
  ((⌊d * 10 + 1 / 2⌋ : ℤ) : ℚ) / 10

/-- `DatabaseManager.increment_player_kill`: validate the distance, read the
current document once, bump kills (with kdr), accumulate `total_distance`
when the distance is positive, then `$set` the new streak, the longest
streak, and — only when the distance is positive and strictly greater than
the stored personal best — the personal best. -/
def increment_player_kill (db : Pvp) (player_name : PName) (distance : ℚ) : Pvp :=
  let d := round1 (clampDistance distance)
  let current := db player_name
  let new_streak := current.current_streak + 1
  let longest := max current.longest_streak new_streak
  let db1 := inc_kills db player_name
  let db2 := if 0 < d then inc_total_distance db1 player_name d else db1
  let pb : Option ℚ :=
    if 0 < d ∧ current.personal_best_distance < d then some d else none
  set_streaks db2 player_name new_streak longest pb

/-- `DatabaseManager.increment_player_death`: bump deaths (with kdr), then
reset the streak. -/
def increment_player_death (db : Pvp) (n : PName) : Pvp :=
  reset_player_streak (inc_deaths db n) n

/-- The statistics state `process_kill_event` touches: the append-only
`kill_events` collection and the `pvp_data` stats map. -/
structure StatsDb where
  kill_events : List KillRecord
  pvp : Pvp

/-- `DatabaseManager.add_kill_event`: append the event with its distance
clamped to `[0, 5000]`. -/
def add_kill_event (db : StatsDb) (r : KillRecord) : StatsDb :=
  { db with kill_events := db.kill_events ++ [{ r with distance := clampDistance r.distance }] }

/-- `KillfeedParser.process_kill_event` (Efkv1.4): store the event, then for
a suicide bump the victim's suicide counter and reset the victim's streak;
for a kill, call `increment_player_kill(guild_id, server_id, distance)` —
three positional arguments, so the distance value lands in the
`player_name` parameter and the `distance` parameter takes its default
`0.0` — and then bump the victim's deaths and reset the victim's streak. -/
def process_kill_event (db : StatsDb) (r : KillRecord) : StatsDb :=
  let db0 := add_kill_event db r
  if r.is_suicide then
    let db1 := { db0 with pvp := inc_suicides db0.pvp (PName.str r.victim) }
    { db1 with pvp := reset_player_streak db1.pvp (PName.str r.victim) }
  else
    let db1 := { db0 with pvp := increment_player_kill db0.pvp (PName.num r.distance) 0 }
    { db1 with pvp := increment_player_death db1.pvp (PName.str r.victim) }

/-- Fresh, empty statistics state. -/
def emptyStatsDb : StatsDb :=
  ⟨[], fun _ => PvpStats.zero⟩

/-- Concrete non-suicide kill record (killer Alice, victim Bob, distance
123.4 m) used to exhibit the argument-passing slip in
`process_kill_event`. -/
def aliceKillsBob : KillRecord :=
  { timestamp_str := "2025.04.30-00.16.49"
    killer := "Alice"
    killer_id := "k1"
    victim := "Bob"
    victim_id := "v1"
    weapon := "AK-47"
    distance := 1234 / 10
    killer_platform := "PC"
    victim_platform := "PC"
    is_suicide := false
    raw_line := "raw" }

/-- Concrete CSV line (killer == victim, relocation-suicide weapon) for the
suicide-normalization scenario. -/
def relocLine : String :=
  "2025.04.30-00.16.49;Bob;id1;Bob;id2;Suicide_by_relocation;5;PC;PC"

/-- Field `i` of a `;`-separated CSV line, as `parse_csv_line` extracts it. -/
def csvField (line : String) (i : Nat) : String :=
  (pySplit (pyStrip line) ';').getD i ""

/-! ## Association-list and counting lemmas -/

theorem lookupState_setState_self (l : List (String × PlayerConnectionState))
    (k : String) (v : PlayerConnectionState) :
    lookupState (setState l k v) k = some v := by
  induction l with
  | nil => simp [setState, lookupState]
  | cons hd tl ih =>
      obtain ⟨k2, v2⟩ := hd
      by_cases h : k2 = k
      · simp [setState, h, lookupState]
      · simp [setState, h, lookupState, ih]

theorem setState_self_of_lookup {l : List (String × PlayerConnectionState)}
    {k : String} {v : PlayerConnectionState}
    (h : lookupState l k = some v) : setState l k v = l := by
  induction l with
  | nil => simp [lookupState] at h
  | cons hd tl ih =>
      obtain ⟨k2, v2⟩ := hd
      by_cases hk : k2 = k
      · simp [lookupState, hk] at h
        simp [setState, hk, h]
      · simp [lookupState, hk] at h
        simp [setState, hk, ih h]

theorem lookupState_append_self {l : List (String × PlayerConnectionState)}
    {k : String} (v : PlayerConnectionState) (h : lookupState l k = none) :
    lookupState (l ++ [(k, v)]) k = some v := by
  induction l with
  | nil => simp [lookupState]
  | cons hd tl ih =>
      obtain ⟨k2, v2⟩ := hd
      by_cases hk : k2 = k
      · simp [lookupState, hk] at h
      · simp [lookupState, hk] at h ⊢
        exact ih h

theorem setState_append_of_none {l : List (String × PlayerConnectionState)}
    {k : String} (v w : PlayerConnectionState) (h : lookupState l k = none) :
    setState (l ++ [(k, v)]) k w = l ++ [(k, w)] := by
  induction l with
  | nil => simp [setState]
  | cons hd tl ih =>
      obtain ⟨k2, v2⟩ := hd
      by_cases hk : k2 = k
      · simp [lookupState, hk] at h
      · simp [lookupState, hk] at h
        simp [setState, hk, ih h]

theorem totalTransitions_append (l : List (String × PlayerConnectionState))
    (k : String) (v : PlayerConnectionState) :
    totalTransitions (l ++ [(k, v)])
      = totalTransitions l + v.state_transitions.length := by
  simp [totalTransitions]

theorem totalTransitions_setState {l : List (String × PlayerConnectionState)}
    {k : String} {w : PlayerConnectionState} (v : PlayerConnectionState)
    (h : lookupState l k = some w) :
    totalTransitions (setState l k v) + w.state_transitions.length
      = totalTransitions l + v.state_transitions.length := by
  induction l with
  | nil => simp [lookupState] at h
  | cons hd tl ih =>
      obtain ⟨k2, v2⟩ := hd
      by_cases hk : k2 = k
      · simp [lookupState, hk] at h
        subst h
        simp [setState, hk, totalTransitions]
        omega
      · simp [lookupState, hk] at h
        have := ih h
        simp [setState, hk, totalTransitions] at this ⊢
        omega

theorem countInState_append (l : List (String × PlayerConnectionState))
    (k : String) (v : PlayerConnectionState) (s : ConnState) :
    countInState (l ++ [(k, v)]) s
      = countInState l s + (if v.current_state = s then 1 else 0) := by
  by_cases h : v.current_state = s <;>
    simp [countInState, List.filter_append, List.filter_cons, h]

theorem countInState_setState {l : List (String × PlayerConnectionState)}
    {k : String} {w : PlayerConnectionState} (v : PlayerConnectionState) (s : ConnState)
    (h : lookupState l k = some w) :
    countInState (setState l k v) s + (if w.current_state = s then 1 else 0)
      = countInState l s + (if v.current_state = s then 1 else 0) := by
  induction l with
  | nil => simp [lookupState] at h
  | cons hd tl ih =>
      obtain ⟨k2, v2⟩ := hd
      by_cases hk : k2 = k
      · simp [lookupState, hk] at h
        subst h
        by_cases h1 : v.current_state = s <;> by_cases h2 : v2.current_state = s <;>
          simp [setState, hk, countInState, List.filter_cons, h1, h2]
      · simp [lookupState, hk] at h
        have := ih h
        by_cases h2 : v2.current_state = s <;>
          simp [setState, hk, countInState, List.filter_cons, h2] at this ⊢ <;> omega

/-! ## Transition-level lemmas -/

theorem transition_to_fail_eq {ps : PlayerConnectionState} {ns : ConnState}
    {e : String} {now : ℚ}
    (h : (ps.transition_to ns e now).2 ≠ TransitionOutcome.applied) :
    (ps.transition_to ns e now).1 = ps := by
  by_cases hd : ps.is_duplicate_event e 30 now
  · simp [PlayerConnectionState.transition_to, hd]
  · by_cases hc : ps.can_transition_to ns = false
    · simp [PlayerConnectionState.transition_to, hd, hc]
    · exact absurd (by simp [PlayerConnectionState.transition_to, hd, hc]) h

theorem transition_to_length (ps : PlayerConnectionState) (ns : ConnState)
    (e : String) (now : ℚ) :
    (ps.transition_to ns e now).1.state_transitions.length
      = ps.state_transitions.length
        + (if (ps.transition_to ns e now).2 = TransitionOutcome.applied then 1 else 0) := by
  unfold PlayerConnectionState.transition_to
  split
  · simp
  · split
    · simp
    · simp

theorem transition_to_applied {ps : PlayerConnectionState} {ns : ConnState}
    {e : String} {now : ℚ}
    (hdup : ps.is_duplicate_event e 30 now = false)
    (hcan : ps.can_transition_to ns = true) :
    ps.transition_to ns e now
      = ({ ps with
            state_transitions :=
              ps.state_transitions ++ [⟨ps.current_state, ns, e, now⟩],
            current_state := ns,
            last_event_time := now,
            last_event_type := some e },
         TransitionOutcome.applied) := by
  unfold PlayerConnectionState.transition_to
  simp [hdup, hcan]

theorem totalTransitions_get_or_create (l : List (String × PlayerConnectionState))
    (k : String) (nm : Option String) (now : ℚ) :
    totalTransitions (get_or_create_player_state l k nm now) = totalTransitions l := by
  cases hl : lookupState l k with
  | none =>
      simp only [get_or_create_player_state, hl]
      rw [totalTransitions_append]
      simp [PlayerConnectionState.new]
  | some ps =>
      simp only [get_or_create_player_state, hl]
      split
      · have hset := totalTransitions_setState (l := l) (k := k) (w := ps)
          { ps with player_name := nm } hl
        simp only [] at hset
        omega
      · rfl

theorem applyTransition_total (states : List (String × PlayerConnectionState))
    (k : String) (ns : ConnState) (e : String) (now : ℚ) :
    totalTransitions (applyTransition states k ns e now).1
      = totalTransitions states
        + (if (applyTransition states k ns e now).2 = TransitionOutcome.applied
           then 1 else 0) := by
  unfold applyTransition
  cases hl : lookupState states k with
  | none => simp
  | some ps =>
      have hset := totalTransitions_setState (l := states) (k := k) (w := ps)
        (ps.transition_to ns e now).1 hl
      have hlen := transition_to_length ps ns e now
      simp only []
      omega

theorem countInState_cons (p : String × PlayerConnectionState)
    (l : List (String × PlayerConnectionState)) (s : ConnState) :
    countInState (p :: l) s
      = (if p.2.current_state = s then 1 else 0) + countInState l s := by
  by_cases h : p.2.current_state = s <;>
    simp [countInState, List.filter_cons, h, Nat.add_comm]

theorem countInState_filter_of
    (l : List (String × PlayerConnectionState))
    (q : String × PlayerConnectionState → Bool) (s : ConnState)
    (h : ∀ p ∈ l, q p = false → p.2.current_state ≠ s) :
    countInState (l.filter q) s = countInState l s := by
  induction l with
  | nil => rfl
  | cons hd tl ih =>
      have htl : ∀ p ∈ tl, q p = false → p.2.current_state ≠ s :=
        fun p hp hq => h p (List.mem_cons_of_mem _ hp) hq
      have hrec := ih htl
      cases hq : q hd with
      | false =>
          have hhd := h hd (List.mem_cons_self _ _) hq
          have hfil : List.filter q (hd :: tl) = List.filter q tl := by
            simp [List.filter_cons, hq]
          rw [hfil, hrec, countInState_cons]
          simp [hhd]
      | true =>
          have hfil : List.filter q (hd :: tl) = hd :: List.filter q tl := by
            simp [List.filter_cons, hq]
          rw [hfil, countInState_cons, countInState_cons, hrec]

/-- C10: the idle-cleanup sweep removes a tracked record only when its state
is DISCONNECTED and its last event time is older than the age cutoff;
records in QUEUED, CONNECTING, or JOINED always survive, so the full-scan
queue and player counts are unchanged by a sweep. -/
theorem cleanup_preserves_active_and_counts :
    ∀ (l : List (String × PlayerConnectionState)) (hrs now : ℚ),
      (∀ p ∈ l, p ∉ cleanup_old_states l hrs now →
        p.2.current_state = ConnState.DISCONNECTED ∧
        p.2.last_event_time < now - hrs * 3600) ∧
      (∀ p ∈ l,
        (p.2.current_state = ConnState.QUEUED ∨
         p.2.current_state = ConnState.CONNECTING ∨
         p.2.current_state = ConnState.JOINED) →
        p ∈ cleanup_old_states l hrs now) ∧
      countInState (cleanup_old_states l hrs now) ConnState.QUEUED
        = countInState l ConnState.QUEUED ∧
      countInState (cleanup_old_states l hrs now) ConnState.JOINED
        = countInState l ConnState.JOINED := by
  intro l hrs now
  refine ⟨?_, ?_, ?_, ?_⟩
  · intro p hp hnot
    by_contra hcon
    apply hnot
    rw [cleanup_old_states, List.mem_filter]
    refine ⟨hp, ?_⟩
    simp only [Bool.not_eq_true']
    by_cases h1 : p.2.current_state = ConnState.DISCONNECTED <;>
      by_cases h2 : p.2.last_event_time < now - hrs * 3600 <;>
      simp [h1, h2] at hcon ⊢
  · intro p hp hstate
    rw [cleanup_old_states, List.mem_filter]
    refine ⟨hp, ?_⟩
    have : p.2.current_state ≠ ConnState.DISCONNECTED := by
      rcases hstate with h | h | h <;> simp [h]
    simp [this]
  · apply countInState_filter_of
    intro p _ hq
    have hab : (decide (p.2.current_state = ConnState.DISCONNECTED) &&
        decide (p.2.last_event_time < now - hrs * 3600)) = true := by
      cases hb : (decide (p.2.current_state = ConnState.DISCONNECTED) &&
          decide (p.2.last_event_time < now - hrs * 3600)) with
      | false => rw [hb] at hq; simp at hq
      | true => rfl
    rw [Bool.and_eq_true] at hab
    have hds := of_decide_eq_true hab.1
    intro hs
    rw [hs] at hds
    exact ConnState.noConfusion hds
  · apply countInState_filter_of
    intro p _ hq
    have hab : (decide (p.2.current_state = ConnState.DISCONNECTED) &&
        decide (p.2.last_event_time < now - hrs * 3600)) = true := by
      cases hb : (decide (p.2.current_state = ConnState.DISCONNECTED) &&
          decide (p.2.last_event_time < now - hrs * 3600)) with
      | false => rw [hb] at hq; simp at hq
      | true => rfl
    rw [Bool.and_eq_true] at hab
    have hds := of_decide_eq_true hab.1
    intro hs
    rw [hs] at hds
    exact ConnState.noConfusion hds

/-- C10 witness: a concrete sweep (one QUEUED player, one stale DISCONNECTED
player) leaves the derived counts unchanged. -/
theorem cleanup_preserves_active_and_counts_witness :
    countInState
        (cleanup_old_states
          [("a", ⟨"a", none, ConnState.QUEUED, 0, none, []⟩),
           ("b", ⟨"b", none, ConnState.DISCONNECTED, 0, none, []⟩)] 24 100000)
        ConnState.QUEUED
      = countInState
          [("a", ⟨"a", none, ConnState.QUEUED, 0, none, []⟩),
           ("b", ⟨"b", none, ConnState.DISCONNECTED, 0, none, []⟩)]
          ConnState.QUEUED ∧
    countInState
        (cleanup_old_states
          [("a", ⟨"a", none, ConnState.QUEUED, 0, none, []⟩),
           ("b", ⟨"b", none, ConnState.DISCONNECTED, 0, none, []⟩)] 24 100000)
        ConnState.JOINED
      = countInState
          [("a", ⟨"a", none, ConnState.QUEUED, 0, none, []⟩),
           ("b", ⟨"b", none, ConnState.DISCONNECTED, 0, none, []⟩)]
          ConnState.JOINED :=
  ⟨(cleanup_preserves_active_and_counts _ 24 100000).2.2.1,
   (cleanup_preserves_active_and_counts _ 24 100000).2.2.2⟩

/-- C7 (amended): a transition request that is not first dropped by duplicate
suppression and whose source state is not in the allowed set is rejected with
the player's state completely unchanged and a warning-level diagnostic;
a request dropped by duplicate suppression is equally a no-op but its
diagnostic is debug-level.  Either way the rejection is an ordinary return
value (`False` in the source), never an exception. -/
theorem invalid_transition_is_noop :
    (∀ (ps : PlayerConnectionState) (target : ConnState) (e : String) (now : ℚ),
      ps.is_duplicate_event e 30 now = false →
      ps.can_transition_to target = false →
      ps.transition_to target e now = (ps, TransitionOutcome.rejected_invalid) ∧
      transition_log_level TransitionOutcome.rejected_invalid = LogLevel.warning ∧
      TransitionOutcome.succeeded TransitionOutcome.rejected_invalid = false) ∧
    (∀ (ps : PlayerConnectionState) (target : ConnState) (e : String) (now : ℚ),
      ps.is_duplicate_event e 30 now = true →
      ps.transition_to target e now = (ps, TransitionOutcome.dropped_duplicate) ∧
      transition_log_level TransitionOutcome.dropped_duplicate = LogLevel.debug) := by
  constructor
  · intro ps target e now h1 h2
    refine ⟨?_, rfl, rfl⟩
    simp [PlayerConnectionState.transition_to, h1, h2]
  · intro ps target e now h1
    refine ⟨?_, rfl⟩
    simp [PlayerConnectionState.transition_to, h1]

/-- C7 witness: a fresh OFFLINE player asked to move to DISCONNECTED (not in
OFFLINE's allowed set) is rejected unchanged with a warning diagnostic. -/
theorem invalid_transition_is_noop_witness :
    (PlayerConnectionState.new "p" none 0).transition_to ConnState.DISCONNECTED
        "disconnect" 5
      = (PlayerConnectionState.new "p" none 0, TransitionOutcome.rejected_invalid) ∧
    transition_log_level TransitionOutcome.rejected_invalid = LogLevel.warning ∧
    TransitionOutcome.succeeded TransitionOutcome.rejected_invalid = false :=
  invalid_transition_is_noop.1 (PlayerConnectionState.new "p" none 0)
    ConnState.DISCONNECTED "disconnect" 5 (by decide) (by decide)

/-- C7 counterexample: a request whose source state is not in the allowed set
(JOINED asked to re-enter JOINED) but which duplicate suppression catches
first is dropped with a debug-level diagnostic, not the warning-level one the
claim promises for every invalid-source request (the state is still
unchanged). -/
theorem invalid_transition_warning_counterexample :
    (PlayerConnectionState.can_transition_to
        ⟨"p", none, ConnState.JOINED, 0, some "player_joined", []⟩ ConnState.JOINED)
      = false ∧
    (PlayerConnectionState.transition_to
        ⟨"p", none, ConnState.JOINED, 0, some "player_joined", []⟩ ConnState.JOINED
        "player_joined" 10)
      = (⟨"p", none, ConnState.JOINED, 0, some "player_joined", []⟩,
         TransitionOutcome.dropped_duplicate) ∧
    transition_log_level TransitionOutcome.dropped_duplicate ≠ LogLevel.warning := by
  refine ⟨by decide, ?_, by decide⟩
  have hdup : (⟨"p", none, ConnState.JOINED, 0, some "player_joined",
      []⟩ : PlayerConnectionState).is_duplicate_event "player_joined" 30 10 = true := by
    simp only [PlayerConnectionState.is_duplicate_event]
    norm_num
  simp [PlayerConnectionState.transition_to, hdup]

/-- C3: the reset detector's third check substring-probes the stored last
line against the single line at index `-min(50, len)` — not against a window
of the last 50 lines, despite the source's own comment.  Stored state
`(size=1000, lines=3, last_line="TAIL")` against new content of size 700
with lines `["A", "TAIL"]` is declared RESET even though the stored last
line is literally the final line of the new content and neither the size nor
the line count dropped by 90 percent.  The claim's rotation example
(100000/2000 down to 500/10) does trigger RESET with the whole file selected
for processing. -/
theorem reset_detector_probes_single_line :
    detect_file_reset (some ⟨1000, 3, "TAIL"⟩) 700 ["A", "TAIL"] = true ∧
    tailProbeLine ["A", "TAIL"] = "A" ∧
    (["A", "TAIL"] : List String).getLastD "" = "TAIL" ∧
    "TAIL" ∈ (["A", "TAIL"] : List String).drop
      ((["A", "TAIL"] : List String).length - min 50 (["A", "TAIL"] : List String).length) ∧
    ¬((700 : ℚ) < 1000 * (1 / 10)) ∧
    ¬(((["A", "TAIL"] : List String).length : ℚ) < (3 : ℚ) * (1 / 10)) ∧
    ingest_select_window (some ⟨100000, 2000, "x"⟩) 500 (List.replicate 10 "line")
      = (List.replicate 10 "line", some ⟨500, 10, "line"⟩) := by
  have hdet1 : detect_file_reset (some ⟨1000, 3, "TAIL"⟩) 700 ["A", "TAIL"] = true := by
    simp only [detect_file_reset]
    rw [if_neg, if_neg, if_pos]
    · exact ⟨by decide, by decide, by norm_num, by decide⟩
    · rintro ⟨-, hlt⟩
      norm_num at hlt
    · rintro ⟨-, hlt⟩
      norm_num at hlt
  have hdet2 : detect_file_reset (some ⟨100000, 2000, "x"⟩) 500
      (List.replicate 10 "line") = true := by
    simp only [detect_file_reset]
    rw [if_pos]
    exact ⟨by norm_num, by norm_num⟩
  refine ⟨hdet1, rfl, rfl, by decide, by norm_num, by norm_num, ?_⟩
  simp only [ingest_select_window, hdet2, if_true]
  refine Prod.ext ?_ ?_
  · simp
  · simp

/-- C4: re-ingesting the very same content right after an ingestion that
recorded its file state selects an empty window of new lines, hence zero
additional events on the second call. -/
theorem reingest_same_content_empty_window :
    ∀ (stored : Option FileState) (size : ℚ) (lines : List String),
      0 ≤ size → lines ≠ [] →
      (ingest_select_window (ingest_select_window stored size lines).2 size lines).1
        = [] ∧
      ∀ (α : Type) (classify : String → Option α),
        ((ingest_select_window (ingest_select_window stored size lines).2 size
          lines).1).filterMap classify = [] := by
  intro stored size lines hsize hne
  have h2 : (ingest_select_window stored size lines).2
      = some ⟨size, lines.length, lines.getLastD ""⟩ := by
    simp [ingest_select_window, hne]
  rw [h2]
  have hdet : detect_file_reset (some ⟨size, lines.length, lines.getLastD ""⟩)
      size lines = false := by
    simp only [detect_file_reset]
    rw [if_neg, if_neg, if_neg]
    · rintro ⟨-, -, hlt, -⟩
      linarith
    · rintro ⟨-, hlt⟩
      have hnn : (0 : ℚ) ≤ (lines.length : ℚ) := by positivity
      linarith
    · rintro ⟨-, hlt⟩
      linarith
  have hwin : (ingest_select_window (some ⟨size, lines.length, lines.getLastD ""⟩)
      size lines).1 = [] := by
    simp only [ingest_select_window, hdet, if_false, Bool.false_eq_true]
    simp
  exact ⟨hwin, fun α classify => by rw [hwin]; rfl⟩

/-- C4 witness: concrete double ingestion of a one-line file yields an empty
second window. -/
theorem reingest_same_content_empty_window_witness :
    (ingest_select_window (ingest_select_window none 5 ["x"]).2 5 ["x"]).1 = [] :=
  (reingest_same_content_empty_window none 5 ["x"] (by norm_num) (by simp)).1

/-- C8: evaluation of `process_kill_event` on a concrete non-suicide kill
(Alice kills Bob at 123.4 m).  Because the call site passes the distance as
the third positional argument of `increment_player_kill`, the kill, streak
and kdr updates land on a `pvp_data` document keyed by the float `123.4`
while Alice's document stays at its defaults, and the real distance never
reaches the distance parameter (it defaults to `0.0`), so no personal-best
or total-distance update happens either.  The victim-side updates (deaths,
streak reset) do reach Bob. -/
theorem kill_credit_misdirected :
    (process_kill_event emptyStatsDb aliceKillsBob).pvp (PName.str "Alice")
      = PvpStats.zero ∧
    ((process_kill_event emptyStatsDb aliceKillsBob).pvp
        (PName.num (1234 / 10))).kills = 1 ∧
    ((process_kill_event emptyStatsDb aliceKillsBob).pvp
        (PName.num (1234 / 10))).personal_best_distance = 0 ∧
    ((process_kill_event emptyStatsDb aliceKillsBob).pvp
        (PName.num (1234 / 10))).total_distance = 0 ∧
    ((process_kill_event emptyStatsDb aliceKillsBob).pvp
        (PName.str "Bob")).deaths = 1 ∧
    ((process_kill_event emptyStatsDb aliceKillsBob).pvp
        (PName.str "Bob")).current_streak = 0 := by
  have hcl : clampDistance (0 : ℚ) = 0 := by
    rw [clampDistance]
    norm_num
  have hd : round1 (clampDistance 0) = 0 := by
    rw [hcl, round1]
    norm_num
  refine ⟨?_, ?_, ?_, ?_, ?_, ?_⟩ <;>
    simp [process_kill_event, add_kill_event, emptyStatsDb, aliceKillsBob,
      increment_player_kill, increment_player_death, inc_kills, inc_deaths,
      inc_suicides, inc_total_distance, set_streaks, reset_player_streak,
      updateAt, recomputeKdr, PvpStats.zero, hd]

/-- C9: a parsed record is a suicide exactly when the (stripped) killer and
victim coincide or the weapon field lower-cases to the relocation-suicide
marker; the relocation marker is normalized to "Menu Suicide", and a
fall-related weapon on a killer==victim record is tagged "Falling" while
still counting as a suicide. -/
theorem suicide_classification :
    ∀ (line : String) (r : KillRecord),
      parse_csv_line line = some r →
      (r.is_suicide = true ↔
        (pyStrip (csvField line 1) = pyStrip (csvField line 3) ∨
         pyLower (csvField line 5) = "suicide_by_relocation")) ∧
      (pyLower (csvField line 5) = "suicide_by_relocation" →
        r.weapon = "Menu Suicide" ∧ r.is_suicide = true) ∧
      (pyStrip (csvField line 1) = pyStrip (csvField line 3) →
        pyLower (csvField line 5) = "falling" →
        r.weapon = "Falling" ∧ r.is_suicide = true) := by
  intro line r h
  simp only [parse_csv_line] at h
  split at h
  · simp at h
  · split at h
    · simp at h
    · rw [Option.some.injEq] at h
      subst h
      simp only [csvField, List.getD_eq_getElem?_getD]
      by_cases hkv : pyStrip ((pySplit (pyStrip line) ';')[1]?.getD "")
          = pyStrip ((pySplit (pyStrip line) ';')[3]?.getD "")
      · by_cases hw : pyLower ((pySplit (pyStrip line) ';')[5]?.getD "")
            = "suicide_by_relocation"
        · refine ⟨by simp [hkv, hw], fun _ => by simp [hkv, hw], ?_⟩
          intro _ hf
          exact absurd (hw.symm.trans hf) (by decide)
        · by_cases hf : pyLower ((pySplit (pyStrip line) ';')[5]?.getD "") = "falling"
          · exact ⟨by simp [hkv, hw, hf],
              fun hw2 => absurd hw2 hw, fun _ _ => by simp [hkv, hw, hf]⟩
          · exact ⟨by simp [hkv, hw, hf],
              fun hw2 => absurd hw2 hw, fun _ hf2 => absurd hf2 hf⟩
      · by_cases hw : pyLower ((pySplit (pyStrip line) ';')[5]?.getD "")
            = "suicide_by_relocation"
        · exact ⟨by simp [hkv, hw], fun _ => by simp [hkv, hw],
            fun hkv2 _ => absurd hkv2 hkv⟩
        · exact ⟨by simp [hkv, hw],
            fun hw2 => absurd hw2 hw, fun hkv2 _ => absurd hkv2 hkv⟩

/-- C9 witness: the line with killer == victim and weapon
`Suicide_by_relocation` parses to a suicide with weapon "Menu Suicide". -/
theorem suicide_classification_witness :
    KillRecord.is_suicide
        ⟨"2025.04.30-00.16.49", "Bob", "id1", "Bob", "id2", "Menu Suicide", 5,
         "PC", "PC", true, relocLine⟩ = true ∧
    KillRecord.weapon
        ⟨"2025.04.30-00.16.49", "Bob", "id1", "Bob", "id2", "Menu Suicide", 5,
         "PC", "PC", true, relocLine⟩ = "Menu Suicide" := by
  have h := suicide_classification relocLine
    ⟨"2025.04.30-00.16.49", "Bob", "id1", "Bob", "id2", "Menu Suicide", 5,
     "PC", "PC", true, relocLine⟩ (by decide)
  have h2 := h.2.1 (by decide)
  exact ⟨h2.2, h2.1⟩

theorem totalTransitions_forceOffline (l : List (String × PlayerConnectionState))
    (k : String) :
    totalTransitions (forceOffline l k) = totalTransitions l := by
  cases hl : lookupState l k with
  | none => simp [forceOffline, hl]
  | some ps =>
      simp only [forceOffline, hl]
      have hset := totalTransitions_setState (l := l) (k := k) (w := ps)
        { ps with current_state := ConnState.OFFLINE } hl
      simp only [] at hset
      omega

theorem forceOffline_append_new {l : List (String × PlayerConnectionState)}
    {k : String} (nm : Option String) (t : ℚ) (hl : lookupState l k = none) :
    forceOffline (l ++ [(k, PlayerConnectionState.new k nm t)]) k
      = l ++ [(k, PlayerConnectionState.new k nm t)] := by
  have hlook := lookupState_append_self (PlayerConnectionState.new k nm t) hl
  simp only [forceOffline, hlook]
  have heq : ({ PlayerConnectionState.new k nm t with
      current_state := ConnState.OFFLINE }) = PlayerConnectionState.new k nm t := rfl
  rw [heq]
  exact setState_self_of_lookup hlook

theorem transition_new_applied (k : String) (nm : Option String) (t : ℚ)
    (target : ConnState)
    (hcan : (PlayerConnectionState.new k nm t).can_transition_to target = true)
    (e : String) :
    (PlayerConnectionState.new k nm t).transition_to target e t
      = (⟨k, nm, target, t, some e, [⟨ConnState.OFFLINE, target, e, t⟩]⟩,
         TransitionOutcome.applied) := by
  have hdup : (PlayerConnectionState.new k nm t).is_duplicate_event e 30 t = false := by
    simp [PlayerConnectionState.is_duplicate_event, PlayerConnectionState.new]
  rw [transition_to_applied hdup hcan]
  simp [PlayerConnectionState.new]

/-- Evaluation of the direct-join branch of `parse_connection_event`: for an
untracked id, a `player_joined` event creates the state, joins it directly,
recomputes the counters, and queues a join embed (with no name). -/
theorem parse_player_joined_of_none (sv : ServerTracking) (player_id : String)
    (now : ℚ) (hl : lookupState sv.player_states player_id = none) :
    parse_connection_event sv (ConnEvent.player_joined player_id) now
      = (update_counts { sv with
            player_states := sv.player_states ++
              [(player_id,
                ⟨player_id, none, ConnState.JOINED, now, some "player_joined",
                 [⟨ConnState.OFFLINE, ConnState.JOINED, "player_joined", now⟩]⟩)] },
         [EmbedCall.player_join player_id none]) := by
  have hgc : get_or_create_player_state sv.player_states player_id none now
      = sv.player_states ++ [(player_id, PlayerConnectionState.new player_id none now)] := by
    simp [get_or_create_player_state, hl]
  have hfo := forceOffline_append_new (l := sv.player_states) (k := player_id) none now hl
  have hlook := lookupState_append_self (PlayerConnectionState.new player_id none now) hl
  have hcan : (PlayerConnectionState.new player_id none now).can_transition_to
      ConnState.JOINED = true := by
    simp [PlayerConnectionState.can_transition_to, PlayerConnectionState.new,
      valid_transitions]
  have htr := transition_new_applied player_id none now ConnState.JOINED hcan "player_joined"
  have hset := setState_append_of_none (l := sv.player_states) (k := player_id)
    (PlayerConnectionState.new player_id none now)
    ⟨player_id, none, ConnState.JOINED, now, some "player_joined",
     [⟨ConnState.OFFLINE, ConnState.JOINED, "player_joined", now⟩]⟩ hl
  simp only [parse_connection_event, hl, hgc, hfo, applyTransition, hlook, htr, hset]
  have hlook2 := lookupState_append_self
    (⟨player_id, none, ConnState.JOINED, now, some "player_joined",
      [⟨ConnState.OFFLINE, ConnState.JOINED, "player_joined", now⟩]⟩ :
      PlayerConnectionState) hl
  simp [joinEmbedCalls, hlook2]

/-- C2: duplicate suppression drops an event whose type equals the player's
most recently applied event within the 30-second window before transition
validity is even consulted (the target state is arbitrary), and two
identical `player_joined` events for an untracked id within the window
produce exactly one OFFLINE→JOINED transition (the audit log holds a single
entry and the state is JOINED). -/
theorem duplicate_event_suppressed :
    (∀ (ps : PlayerConnectionState) (target : ConnState) (e : String) (now : ℚ),
      ps.last_event_type = some e →
      now - ps.last_event_time < 30 →
      ps.transition_to target e now = (ps, TransitionOutcome.dropped_duplicate)) ∧
    (∀ (sv : ServerTracking) (player_id : String) (t1 t2 : ℚ),
      lookupState sv.player_states player_id = none →
      t2 - t1 < 30 →
      lookupState
          (parse_connection_event
            (parse_connection_event sv (ConnEvent.player_joined player_id) t1).1
            (ConnEvent.player_joined player_id) t2).1.player_states player_id
        = some ⟨player_id, none, ConnState.JOINED, t1, some "player_joined",
                [⟨ConnState.OFFLINE, ConnState.JOINED, "player_joined", t1⟩]⟩) := by
  constructor
  · intro ps target e now hlast ht
    have hdup : ps.is_duplicate_event e 30 now = true := by
      simp [PlayerConnectionState.is_duplicate_event, hlast, ht]
    simp [PlayerConnectionState.transition_to, hdup]
  · intro sv player_id t1 t2 hl ht
    have hstep1 := parse_player_joined_of_none sv player_id t1 hl
    have hps1 : (parse_connection_event sv (ConnEvent.player_joined player_id) t1).1.player_states
        = sv.player_states ++
          [(player_id,
            ⟨player_id, none, ConnState.JOINED, t1, some "player_joined",
             [⟨ConnState.OFFLINE, ConnState.JOINED, "player_joined", t1⟩]⟩)] := by
      rw [hstep1]
      rfl
    have hlook := lookupState_append_self
      (⟨player_id, none, ConnState.JOINED, t1, some "player_joined",
        [⟨ConnState.OFFLINE, ConnState.JOINED, "player_joined", t1⟩]⟩ :
        PlayerConnectionState) hl
    have hdup2 : (⟨player_id, none, ConnState.JOINED, t1, some "player_joined",
        [⟨ConnState.OFFLINE, ConnState.JOINED, "player_joined", t1⟩]⟩ :
        PlayerConnectionState).is_duplicate_event "player_joined" 30 t2 = true := by
      simp [PlayerConnectionState.is_duplicate_event, ht]
    have htr2 : (⟨player_id, none, ConnState.JOINED, t1, some "player_joined",
        [⟨ConnState.OFFLINE, ConnState.JOINED, "player_joined", t1⟩]⟩ :
        PlayerConnectionState).transition_to ConnState.JOINED "player_joined" t2
        = (⟨player_id, none, ConnState.JOINED, t1, some "player_joined",
            [⟨ConnState.OFFLINE, ConnState.JOINED, "player_joined", t1⟩]⟩,
           TransitionOutcome.dropped_duplicate) := by
      simp [PlayerConnectionState.transition_to, hdup2]
    have hrw : (parse_connection_event sv (ConnEvent.player_joined player_id) t1).1
        = update_counts { sv with
            player_states := sv.player_states ++
              [(player_id,
                ⟨player_id, none, ConnState.JOINED, t1, some "player_joined",
                 [⟨ConnState.OFFLINE, ConnState.JOINED, "player_joined", t1⟩]⟩)] } := by
      rw [hstep1]
    rw [hrw]
    have hset2 := setState_self_of_lookup hlook
    simp only [parse_connection_event, update_counts, applyTransition, hlook, htr2, hset2]
    simpa using hlook

/-- C2 witness: two `player_joined` events for a fresh id at t=0 and t=10
(within the 30 s window) leave the player JOINED with exactly one recorded
transition. -/
theorem duplicate_event_suppressed_witness :
    lookupState
        (parse_connection_event
          (parse_connection_event initServerTracking (ConnEvent.player_joined "a") 0).1
          (ConnEvent.player_joined "a") 10).1.player_states "a"
      = some ⟨"a", none, ConnState.JOINED, 0, some "player_joined",
              [⟨ConnState.OFFLINE, ConnState.JOINED, "player_joined", 0⟩]⟩ :=
  duplicate_event_suppressed.2 initServerTracking "a" 0 10 rfl (by norm_num)

/-- C5: a `player_joined` event for a player with no tracking record (or a
record in OFFLINE with no applied event yet) is accepted — the player ends
up JOINED and the recomputed `player_count` is one more than before
(assuming the stored counter agreed with the full scan, which every
recompute guarantees). -/
theorem direct_join_increments_player_count :
    (∀ (sv : ServerTracking) (player_id : String) (now : ℚ),
      lookupState sv.player_states player_id = none →
      sv.player_count = countInState sv.player_states ConnState.JOINED →
      (lookupState
          (parse_connection_event sv (ConnEvent.player_joined player_id) now).1.player_states
          player_id).map (fun q => q.current_state) = some ConnState.JOINED ∧
      (parse_connection_event sv (ConnEvent.player_joined player_id) now).1.player_count
        = sv.player_count + 1) ∧
    (∀ (sv : ServerTracking) (player_id : String) (ps : PlayerConnectionState) (now : ℚ),
      lookupState sv.player_states player_id = some ps →
      ps.current_state = ConnState.OFFLINE →
      ps.last_event_type = none →
      sv.player_count = countInState sv.player_states ConnState.JOINED →
      (lookupState
          (parse_connection_event sv (ConnEvent.player_joined player_id) now).1.player_states
          player_id).map (fun q => q.current_state) = some ConnState.JOINED ∧
      (parse_connection_event sv (ConnEvent.player_joined player_id) now).1.player_count
        = sv.player_count + 1) := by
  constructor
  · intro sv player_id now hl hcnt
    have hstep := parse_player_joined_of_none sv player_id now hl
    have hrw : (parse_connection_event sv (ConnEvent.player_joined player_id) now).1
        = update_counts { sv with
            player_states := sv.player_states ++
              [(player_id,
                ⟨player_id, none, ConnState.JOINED, now, some "player_joined",
                 [⟨ConnState.OFFLINE, ConnState.JOINED, "player_joined", now⟩]⟩)] } := by
      rw [hstep]
    rw [hrw]
    have hlook := lookupState_append_self
      (⟨player_id, none, ConnState.JOINED, now, some "player_joined",
        [⟨ConnState.OFFLINE, ConnState.JOINED, "player_joined", now⟩]⟩ :
        PlayerConnectionState) hl
    constructor
    · simp only [update_counts]
      simp [hlook]
    · simp only [update_counts]
      rw [countInState_append]
      simp [hcnt]
  · intro sv player_id ps now hl hcs hlet hcnt
    have hdup : ps.is_duplicate_event "player_joined" 30 now = false := by
      simp [PlayerConnectionState.is_duplicate_event, hlet]
    have hcan : ps.can_transition_to ConnState.JOINED = true := by
      simp [PlayerConnectionState.can_transition_to, hcs, valid_transitions]
    have htr := transition_to_applied hdup hcan
    have hlook2 := lookupState_setState_self sv.player_states player_id
      { ps with
          state_transitions := ps.state_transitions ++
            [⟨ps.current_state, ConnState.JOINED, "player_joined", now⟩],
          current_state := ConnState.JOINED,
          last_event_time := now,
          last_event_type := some "player_joined" }
    have hcount := countInState_setState
      (l := sv.player_states) (k := player_id) (w := ps)
      { ps with
          state_transitions := ps.state_transitions ++
            [⟨ps.current_state, ConnState.JOINED, "player_joined", now⟩],
          current_state := ConnState.JOINED,
          last_event_time := now,
          last_event_type := some "player_joined" }
      ConnState.JOINED hl
    simp only [parse_connection_event, hl, applyTransition, htr]
    constructor
    · simp [update_counts, hlook2]
    · have hne : ps.current_state ≠ ConnState.JOINED := by
        rw [hcs]
        intro hx
        exact ConnState.noConfusion hx
      simp only [update_counts]
      simp [hne] at hcount
      simp [hcount, hcnt]

/-- C5 witness: a direct join of an untracked player on a fresh server takes
the stored player count from 0 to 1 and leaves the player JOINED. -/
theorem direct_join_increments_player_count_witness :
    (lookupState
        (parse_connection_event initServerTracking (ConnEvent.player_joined "a") 0).1.player_states
        "a").map (fun q => q.current_state) = some ConnState.JOINED ∧
    (parse_connection_event initServerTracking (ConnEvent.player_joined "a") 0).1.player_count
      = initServerTracking.player_count + 1 :=
  direct_join_increments_player_count.1 initServerTracking "a" 0 rfl rfl

/-- C6: for a tracked player (whose event is not dropped as a duplicate), a
disconnect queues a leave notification if and only if the player's
pre-transition state was JOINED; a disconnect from QUEUED or CONNECTING
still moves the player to DISCONNECTED and recomputes both counters, but
emits no leave notification. -/
theorem disconnect_leave_gating :
    ∀ (sv : ServerTracking) (player_id : String) (ps : PlayerConnectionState) (now : ℚ),
      lookupState sv.player_states player_id = some ps →
      ps.is_duplicate_event "disconnect" 30 now = false →
      (hasLeaveCall (parse_connection_event sv (ConnEvent.disconnect player_id) now).2
          = true ↔ ps.current_state = ConnState.JOINED) ∧
      ((ps.current_state = ConnState.QUEUED ∨ ps.current_state = ConnState.CONNECTING) →
        (lookupState
            (parse_connection_event sv (ConnEvent.disconnect player_id) now).1.player_states
            player_id).map (fun q => q.current_state) = some ConnState.DISCONNECTED ∧
        (parse_connection_event sv (ConnEvent.disconnect player_id) now).1.queue_count
          = countInState
              (parse_connection_event sv (ConnEvent.disconnect player_id) now).1.player_states
              ConnState.QUEUED ∧
        (parse_connection_event sv (ConnEvent.disconnect player_id) now).1.player_count
          = countInState
              (parse_connection_event sv (ConnEvent.disconnect player_id) now).1.player_states
              ConnState.JOINED ∧
        (parse_connection_event sv (ConnEvent.disconnect player_id) now).2 = []) := by
  intro sv player_id ps now hl hdup
  cases hcs : ps.current_state with
  | OFFLINE | DISCONNECTED =>
      have hcan : ps.can_transition_to ConnState.DISCONNECTED = false := by
        simp [PlayerConnectionState.can_transition_to, hcs, valid_transitions]
      have htr : ps.transition_to ConnState.DISCONNECTED "disconnect" now
          = (ps, TransitionOutcome.rejected_invalid) := by
        simp [PlayerConnectionState.transition_to, hdup, hcan]
      constructor
      · simp only [parse_connection_event, hl, applyTransition, htr]
        simp [hasLeaveCall, hcs]
      · intro hqc
        rcases hqc with h | h <;> exact ConnState.noConfusion h
  | QUEUED | CONNECTING =>
      have hcan : ps.can_transition_to ConnState.DISCONNECTED = true := by
        simp [PlayerConnectionState.can_transition_to, hcs, valid_transitions]
      have htr := transition_to_applied hdup hcan
      have hlook2 := lookupState_setState_self sv.player_states player_id
        { ps with
            state_transitions := ps.state_transitions ++
              [⟨ps.current_state, ConnState.DISCONNECTED, "disconnect", now⟩],
            current_state := ConnState.DISCONNECTED,
            last_event_time := now,
            last_event_type := some "disconnect" }
      constructor
      · simp only [parse_connection_event, hl, applyTransition, htr]
        simp [hasLeaveCall, hcs]
      · intro _
        simp only [parse_connection_event, hl, applyTransition, htr]
        refine ⟨?_, ?_, ?_, ?_⟩
        · simp [update_counts, hlook2]
        · simp [update_counts, hcs]
        · simp [update_counts, hcs]
        · simp [hcs]
  | JOINED =>
      have hcan : ps.can_transition_to ConnState.DISCONNECTED = true := by
        simp [PlayerConnectionState.can_transition_to, hcs, valid_transitions]
      have htr := transition_to_applied hdup hcan
      have hlook2 := lookupState_setState_self sv.player_states player_id
        { ps with
            state_transitions := ps.state_transitions ++
              [⟨ps.current_state, ConnState.DISCONNECTED, "disconnect", now⟩],
            current_state := ConnState.DISCONNECTED,
            last_event_time := now,
            last_event_type := some "disconnect" }
      constructor
      · rw [hcs] at hlook2
        simp only [parse_connection_event, hl, applyTransition, htr]
        simp [hasLeaveCall, hcs, leaveEmbedCalls, hlook2]
      · intro hqc
        rcases hqc with h | h <;> exact ConnState.noConfusion h

/-- C6 witness: disconnecting a JOINED player queues a leave notification. -/
theorem disconnect_leave_gating_witness :
    hasLeaveCall
        (parse_connection_event
          ⟨[("a", ⟨"a", some "N", ConnState.JOINED, 0, some "player_joined", []⟩)],
           0, 1, none⟩
          (ConnEvent.disconnect "a") 5).2 = true :=
  (disconnect_leave_gating
      ⟨[("a", ⟨"a", some "N", ConnState.JOINED, 0, some "player_joined", []⟩)], 0, 1, none⟩
      "a" ⟨"a", some "N", ConnState.JOINED, 0, some "player_joined", []⟩ 5
      rfl (by decide)).1.mpr rfl

/-- C1 (amended): whenever a queue-join, player-joined, disconnect, or
beacon-disconnect event actually applies a transition (observable as the
total audit-log length growing), the stored counters are recomputed by a
full scan — `queue_count` counting exactly the QUEUED players (CONNECTING is
not counted) and `player_count` exactly the JOINED players; a beacon-join
event never touches the stored counters, applied or not. -/
theorem counts_recomputed_on_counted_events :
    (∀ (sv : ServerTracking) (ev : ConnEvent) (now : ℚ),
      isCountedEvent ev = true →
      totalTransitions (parse_connection_event sv ev now).1.player_states
          ≠ totalTransitions sv.player_states →
      (parse_connection_event sv ev now).1.queue_count
          = countInState (parse_connection_event sv ev now).1.player_states
              ConnState.QUEUED ∧
      (parse_connection_event sv ev now).1.player_count
          = countInState (parse_connection_event sv ev now).1.player_states
              ConnState.JOINED) ∧
    (∀ (sv : ServerTracking) (player_id : String) (now : ℚ),
      (parse_connection_event sv (ConnEvent.beacon_join player_id) now).1.queue_count
          = sv.queue_count ∧
      (parse_connection_event sv (ConnEvent.beacon_join player_id) now).1.player_count
          = sv.player_count) := by
  constructor
  · intro sv ev now hev hne
    cases ev with
    | beacon_join player_id => simp [isCountedEvent] at hev
    | server_max_players n => simp [isCountedEvent] at hev
    | queue_join player_name player_id =>
        by_cases hid : player_id = ""
        · rw [hid] at hne
          simp [parse_connection_event] at hne
        · simp only [parse_connection_event] at hne ⊢
          rw [if_neg hid] at hne ⊢
          by_cases happ : (applyTransition
              (get_or_create_player_state sv.player_states player_id (some player_name) now)
              player_id ConnState.QUEUED "queue_join" now).2 = TransitionOutcome.applied
          · rw [if_pos happ]
            exact ⟨rfl, rfl⟩
          · rw [if_neg happ] at hne
            simp at hne
            have h1 := applyTransition_total
              (get_or_create_player_state sv.player_states player_id (some player_name) now)
              player_id ConnState.QUEUED "queue_join" now
            rw [if_neg happ] at h1
            have h2 := totalTransitions_get_or_create sv.player_states player_id
              (some player_name) now
            exact absurd (by omega) hne
    | player_joined player_id =>
        cases hl : lookupState sv.player_states player_id with
        | some ps =>
            simp only [parse_connection_event, hl] at hne ⊢
            by_cases happ : (applyTransition sv.player_states player_id ConnState.JOINED
                "player_joined" now).2 = TransitionOutcome.applied
            · rw [if_pos happ]
              exact ⟨rfl, rfl⟩
            · rw [if_neg happ] at hne
              simp at hne
              have h1 := applyTransition_total sv.player_states player_id ConnState.JOINED
                "player_joined" now
              rw [if_neg happ] at h1
              exact absurd (by omega) hne
        | none =>
            simp only [parse_connection_event, hl] at hne ⊢
            by_cases happ : (applyTransition
                (forceOffline (get_or_create_player_state sv.player_states player_id none now)
                  player_id)
                player_id ConnState.JOINED "player_joined" now).2 = TransitionOutcome.applied
            · rw [if_pos happ]
              exact ⟨rfl, rfl⟩
            · rw [if_neg happ] at hne
              simp at hne
              have h1 := applyTransition_total
                (forceOffline (get_or_create_player_state sv.player_states player_id none now)
                  player_id)
                player_id ConnState.JOINED "player_joined" now
              rw [if_neg happ] at h1
              have h2 := totalTransitions_forceOffline
                (get_or_create_player_state sv.player_states player_id none now) player_id
              have h3 := totalTransitions_get_or_create sv.player_states player_id none now
              exact absurd (by omega) hne
    | disconnect player_id =>
        cases hl : lookupState sv.player_states player_id with
        | some ps =>
            simp only [parse_connection_event, hl] at hne ⊢
            by_cases happ : (applyTransition sv.player_states player_id
                ConnState.DISCONNECTED "disconnect" now).2 = TransitionOutcome.applied
            · rw [if_pos happ]
              exact ⟨rfl, rfl⟩
            · rw [if_neg happ] at hne
              simp at hne
              have h1 := applyTransition_total sv.player_states player_id
                ConnState.DISCONNECTED "disconnect" now
              rw [if_neg happ] at h1
              exact absurd (by omega) hne
        | none =>
            simp only [parse_connection_event, hl] at hne
            simp at hne
            have h2 := totalTransitions_get_or_create sv.player_states player_id none now
            exact absurd h2 hne
    | beacon_disconnect player_id =>
        by_cases hid : player_id = ""
        · rw [hid] at hne
          simp [parse_connection_event] at hne
        · simp only [parse_connection_event] at hne ⊢
          rw [if_neg hid] at hne ⊢
          cases hl : lookupState sv.player_states player_id with
          | some ps =>
              rw [hl] at hne
              simp only [] at hne ⊢
              by_cases happ : (applyTransition sv.player_states player_id
                  ConnState.DISCONNECTED "beacon_disconnect" now).2
                  = TransitionOutcome.applied
              · rw [if_pos happ]
                exact ⟨rfl, rfl⟩
              · rw [if_neg happ] at hne
                simp at hne
                have h1 := applyTransition_total sv.player_states player_id
                  ConnState.DISCONNECTED "beacon_disconnect" now
                rw [if_neg happ] at h1
                exact absurd (by omega) hne
          | none =>
              rw [hl] at hne
              simp at hne
  · intro sv player_id now
    by_cases hid : player_id = ""
    · simp [parse_connection_event, hid]
    · simp only [parse_connection_event]
      rw [if_neg hid]
      exact ⟨rfl, rfl⟩

/-- C1 counterexample: with player "a" CONNECTING (beacon join observed) and
player "b" QUEUED, the stored `queue_count` right after the successful
queue-join transition is 1, not the 2 the claim's "QUEUED plus CONNECTING"
reading demands. -/
theorem queue_count_ignores_connecting_counterexample :
    (parse_connection_event
        (parse_connection_event initServerTracking (ConnEvent.beacon_join "a") 0).1
        (ConnEvent.queue_join "NameB" "b") 1).1.queue_count = 1 ∧
    countInState
        (parse_connection_event
          (parse_connection_event initServerTracking (ConnEvent.beacon_join "a") 0).1
          (ConnEvent.queue_join "NameB" "b") 1).1.player_states ConnState.CONNECTING = 1 ∧
    (parse_connection_event
        (parse_connection_event initServerTracking (ConnEvent.beacon_join "a") 0).1
        (ConnEvent.queue_join "NameB" "b") 1).1.queue_count
      ≠ countInState
          (parse_connection_event
            (parse_connection_event initServerTracking (ConnEvent.beacon_join "a") 0).1
            (ConnEvent.queue_join "NameB" "b") 1).1.player_states ConnState.QUEUED
        + countInState
            (parse_connection_event
              (parse_connection_event initServerTracking (ConnEvent.beacon_join "a") 0).1
              (ConnEvent.queue_join "NameB" "b") 1).1.player_states ConnState.CONNECTING := by
  decide

/-- C1 witness: a successful queue join on a fresh server leaves the stored
counters equal to the full-scan counts. -/
theorem counts_recomputed_on_counted_events_witness :
    (parse_connection_event initServerTracking (ConnEvent.queue_join "N" "a") 0).1.queue_count
        = countInState
            (parse_connection_event initServerTracking
              (ConnEvent.queue_join "N" "a") 0).1.player_states ConnState.QUEUED ∧
    (parse_connection_event initServerTracking (ConnEvent.queue_join "N" "a") 0).1.player_count
        = countInState
            (parse_connection_event initServerTracking
              (ConnEvent.queue_join "N" "a") 0).1.player_states ConnState.JOINED :=
  counts_recomputed_on_counted_events.1 initServerTracking
    (ConnEvent.queue_join "N" "a") 0 (by decide) (by decide)
